import Mathlib

/-!
Shallow embedding of the payment-reconciliation subsystem of the
Learning-Management-System backend.

The model covers:
* the purchase data model (`CoursePurchase`, `User`, `Course`, `DB`);
* the Stripe provider client surface used by the code (`Provider`,
  `verifyPaymentWithStripe`);
* the reconciliation engine (`updatePurchaseToSucceeded`);
* the periodic stuck-payment sweeper (`checkForStuckPayments`);
* the standalone stuck-payment fix script (`fixAllStuckPayments`);
* the admin CLI fixer (`fixPayment`) and the dev fix-payment route
  (`fixPaymentRoute`);
* the webhook handler with its purchase-lookup cascade (`stripeWebhook`,
  `findPurchaseForSession`);
* the course-detail query (`getCourseDetailWithPurchaseStatus`).

Mongoose documents become plain structures; collections become lists; the
asynchronous Stripe calls become a pure oracle `Provider` mapping a session id
to either a session object or a thrown error message.  The possibility that
the enrollment writes throw (they are wrapped in try/catch in the source) is
modelled by an explicit `enrollOk` flag.  Database writes that the code issues
are additionally recorded as a `DbWrite` trace so that "performs no write" is
expressible.
-/

/-- Status enumeration of a purchase record ("pending", "succeeded", "failed"). -/
inductive PurchaseStatus
  | pending
  | succeeded
  | failed
  deriving DecidableEq, Repr

/-- One `CoursePurchase` document: one attempt to buy one course by one user.
`paymentId` is the external Stripe checkout-session id (empty string when
unset, mirroring a missing field). `createdAt` is epoch milliseconds. -/
structure CoursePurchase where
  id : String
  courseId : String
  userId : String
  amount : ℚ
  status : PurchaseStatus
  paymentId : String
  createdAt : Nat
  deriving DecidableEq, Repr

/-- A user document restricted to the field reconciliation touches. -/
structure User where
  id : String
  enrolledCourses : List String
  deriving DecidableEq, Repr

/-- A course document restricted to the field reconciliation touches. -/
structure Course where
  id : String
  enrolledStudents : List String
  deriving DecidableEq, Repr

/-- The mutable store: the three MongoDB collections the subsystem touches. -/
structure DB where
  purchases : List CoursePurchase
  users : List User
  courses : List Course
  deriving DecidableEq, Repr

/-- The metadata attached to a checkout session at creation time. -/
structure SessionMetadata where
  courseId : Option String
  userId : Option String
  deriving DecidableEq, Repr

/-- A Stripe checkout-session object as far as the code reads it. -/
structure StripeSession where
  id : String
  payment_status : String
  amount_total : ℚ
  metadata : Option SessionMetadata
  deriving DecidableEq, Repr

/-- Result of `stripe.checkout.sessions.retrieve`: either the session object
or a thrown error (network, auth, malformed id rejected by Stripe). -/
inductive RetrieveResult
  | ok (session : StripeSession)
  | err (message : String)
  deriving DecidableEq, Repr

/-- The provider oracle: what `stripe.checkout.sessions.retrieve` does for a
given session id during the run under consideration. -/
abbrev Provider := String → RetrieveResult

/-- List-level test that `needle` occurs at the start of `hay`. -/
def listStarts : List Char → List Char → Bool
  | [], _ => true
  | _ :: _, [] => false
  | a :: as, b :: bs => decide (a = b) && listStarts as bs

/-- List-level test that `needle` occurs contiguously anywhere in `hay`;
models both a JavaScript `String.includes` test and an unanchored
`$regex` match on a literal pattern. -/
def listIsInfix (needle : List Char) : List Char → Bool
  | [] => listStarts needle []
  | c :: rest => listStarts needle (c :: rest) || listIsInfix needle rest

/-- Model of JavaScript `s.startsWith(t)`. -/
def strStartsWith (s t : String) : Bool :=
  listStarts t.data s.data

/-- Model of JavaScript `s.substring(0, n)`. -/
def strTake (s : String) (n : Nat) : String :=
  ⟨s.data.take n⟩

/-- Model of a MongoDB `findOne(query)`: the first document satisfying the
predicate, or nothing. -/
def findFirst {α : Type} (pred : α → Bool) : List α → Option α
  | [] => none
  | x :: t => if pred x then some x else findFirst pred t

/-- Return value of `verifyPaymentWithStripe`: the `verified` flag plus the
optional `session` / `error` fields the source attaches. -/
structure VerifyResult where
  verified : Bool
  session : Option StripeSession
  error : Option String
  deriving DecidableEq, Repr

/-- Model of `verifyPaymentWithStripe` (coursePurchase controller): for a
checkout-session id (`cs_` prefixed) retrieve the session and report
`verified` iff `payment_status === "paid"`, carrying the session object; a
thrown error is caught and reported through the `error` field; a
non-checkout-session id yields a bare unverified result. -/
def verifyPaymentWithStripe (provider : Provider) (paymentId : String) : VerifyResult :=
  if strStartsWith paymentId "cs_" then
    match provider paymentId with
    | RetrieveResult.ok s =>
        { verified := decide (s.payment_status = "paid"), session := some s, error := none }
    | RetrieveResult.err m =>
        { verified := false, session := none, error := some m }
  else
    { verified := false, session := none, error := none }

/-- MongoDB `$addToSet` semantics: insert at the end when absent. -/
def addToSet (x : String) (l : List String) : List String :=
  if x ∈ l then l else l ++ [x]

/-- `User.findByIdAndUpdate(userId, addToSet enrolledCourses courseId)`. -/
def userAddEnrolledCourse (users : List User) (userId courseId : String) : List User :=
  users.map fun u =>
    if u.id = userId then { u with enrolledCourses := addToSet courseId u.enrolledCourses } else u

/-- `Course.findByIdAndUpdate(courseId, addToSet enrolledStudents userId)`. -/
def courseAddEnrolledStudent (courses : List Course) (courseId userId : String) : List Course :=
  courses.map fun c =>
    if c.id = courseId then { c with enrolledStudents := addToSet userId c.enrolledStudents } else c

/-- Persisting a mongoose document with `purchase.save()`: the stored record
with the same `_id` is replaced by the in-memory document. -/
def savePurchase (purchases : List CoursePurchase) (p : CoursePurchase) : List CoursePurchase :=
  purchases.map fun q => if q.id = p.id then p else q

/-- `CoursePurchase.findById` / `findOne` on the internal id. -/
def findById (purchases : List CoursePurchase) (id : String) : Option CoursePurchase :=
  findFirst (fun p => decide (p.id = id)) purchases

/-- One database write issued by the code, for the effect trace. -/
inductive DbWrite
  | enrollUser (userId courseId : String)
  | enrollCourse (courseId userId : String)
  | savePurchase (purchaseId : String)
  deriving DecidableEq, Repr

/-- Model of `updatePurchaseToSucceeded`: unconditionally set the status to
`succeeded`, issue both enrollment `$addToSet` updates (skipped when the
`Promise.all` throws, which the source catches and logs — `enrollOk = false`),
then save the purchase.  Returns the new store, the saved document, and the
trace of writes issued.  The source performs no check of the current status. -/
def updatePurchaseToSucceeded (db : DB) (purchase : CoursePurchase) (enrollOk : Bool) :
    DB × CoursePurchase × List DbWrite :=
  let p := { purchase with status := PurchaseStatus.succeeded }
  let enrolled :=
    if enrollOk then
      ({ db with
          users := userAddEnrolledCourse db.users p.userId p.courseId,
          courses := courseAddEnrolledStudent db.courses p.courseId p.userId },
       [DbWrite.enrollUser p.userId p.courseId, DbWrite.enrollCourse p.courseId p.userId])
    else (db, ([] : List DbWrite))
  let db2 := { enrolled.1 with purchases := savePurchase enrolled.1.purchases p }
  (db2, p, enrolled.2 ++ [DbWrite.savePurchase p.id])

/-- Whether a `retrieve` of the given id yields a session in `paid` state;
`false` both when the provider reports an unpaid state and when the call
throws. -/
def providerSaysPaid (provider : Provider) (paymentId : String) : Bool :=
  match provider paymentId with
  | RetrieveResult.ok s => decide (s.payment_status = "paid")
  | RetrieveResult.err _ => false

/-- Processing of a single stuck pending purchase inside
`checkForStuckPayments`: verify with Stripe and update when verified;
otherwise, for purchases older than 30 minutes, retrieve the session directly
and update only when it reports `paid`; any thrown provider error is caught
and the purchase is left untouched. -/
def sweepOne (provider : Provider) (now : Nat) (enrollOk : Bool)
    (db : DB) (purchase : CoursePurchase) : DB :=
  let check := verifyPaymentWithStripe provider purchase.paymentId
  if check.verified then
    (updatePurchaseToSucceeded db purchase enrollOk).1
  else if purchase.createdAt < now - 30 * 60 * 1000 then
    match provider purchase.paymentId with
    | RetrieveResult.ok s =>
        if s.payment_status = "paid" then (updatePurchaseToSucceeded db purchase enrollOk).1
        else db
    | RetrieveResult.err _ => db
  else db

/-- Model of `checkForStuckPayments`: select pending purchases older than two
minutes and process each with `sweepOne`, errors per purchase being isolated. -/
def checkForStuckPayments (provider : Provider) (now : Nat) (enrollOk : Bool) (db : DB) : DB :=
  let stuck := db.purchases.filter fun p =>
    decide (p.status = PurchaseStatus.pending) && decide (p.createdAt < now - 2 * 60 * 1000)
  stuck.foldl (sweepOne provider now enrollOk) db

/-- Model of the `fixPayment` helper of the admin CLI (`adminTools.js`): a
non-pending payment is reported as needing no action, without any write;
otherwise the payment is verified with Stripe (when a Stripe client exists and
the id looks like a checkout session), and on `force` or verification the
status is saved as `succeeded` first and the enrollment updates are issued
after (returning `false` when they throw, `enrollOk = false`). -/
def fixPayment (db : DB) (provider : Provider) (stripeEnabled : Bool)
    (payment : CoursePurchase) (force : Bool) (enrollOk : Bool) :
    DB × Bool × List DbWrite :=
  if payment.status ≠ PurchaseStatus.pending then
    (db, false, [])
  else
    let stripeVerified :=
      stripeEnabled && !(payment.paymentId = "") && strStartsWith payment.paymentId "cs_" &&
        providerSaysPaid provider payment.paymentId
    if force || stripeVerified then
      let p := { payment with status := PurchaseStatus.succeeded }
      let db1 := { db with purchases := savePurchase db.purchases p }
      if enrollOk then
        ({ db1 with
            users := userAddEnrolledCourse db1.users p.userId p.courseId,
            courses := courseAddEnrolledStudent db1.courses p.courseId p.userId },
         true,
         [DbWrite.savePurchase p.id, DbWrite.enrollUser p.userId p.courseId,
          DbWrite.enrollCourse p.courseId p.userId])
      else
        (db1, false, [DbWrite.savePurchase p.id])
    else
      (db, false, [])

/-- Model of the development-only `GET /fix-payment/:purchaseId` route: in
production answer 403; otherwise look the purchase up by id (404 when absent),
and when it is pending save it as `succeeded` — without any enrollment
update — answering 200; a non-pending purchase answers 400 unchanged. -/
def fixPaymentRoute (db : DB) (isProduction : Bool) (purchaseId : String) : DB × Nat :=
  if isProduction then (db, 403)
  else
    match findById db.purchases purchaseId with
    | none => (db, 404)
    | some p =>
        if p.status = PurchaseStatus.pending then
          ({ db with
              purchases := savePurchase db.purchases { p with status := PurchaseStatus.succeeded } },
           200)
        else (db, 400)

/-- Processing of one pending purchase in the standalone `fixStuckPayment.js`
script: verify with Stripe when the id looks like a checkout session, and fix
the payment when Stripe confirms it paid OR the purchase is older than one
hour, saving the status and issuing both enrollment updates. -/
def fixOneStuck (provider : Provider) (now : Nat) (db : DB) (purchase : CoursePurchase) : DB :=
  let isOld := decide (now - purchase.createdAt > 60 * 60 * 1000)
  let stripeVerified :=
    !(purchase.paymentId = "") && strStartsWith purchase.paymentId "cs_" &&
      providerSaysPaid provider purchase.paymentId
  if stripeVerified || isOld then
    let p := { purchase with status := PurchaseStatus.succeeded }
    { db with
        purchases := savePurchase db.purchases p,
        users := userAddEnrolledCourse db.users p.userId p.courseId,
        courses := courseAddEnrolledStudent db.courses p.courseId p.userId }
  else db

/-- Model of `fixAllStuckPayments` (`fixStuckPayment.js`): process every
pending purchase with `fixOneStuck`, errors per purchase being isolated. -/
def fixAllStuckPayments (provider : Provider) (now : Nat) (db : DB) : DB :=
  (db.purchases.filter fun p => decide (p.status = PurchaseStatus.pending)).foldl
    (fixOneStuck provider now) db

/-- The checkout-session id hardcoded in the webhook handler for one known
problematic payment. -/
def specificSessionId : String :=
  "cs_test_a1yhrwDMB306hCrHfRnFp5C6OYQwe4tRTHMWQUNtEar1Lz4Ac4sSPXKLNr"

/-- The purchase id hardcoded next to `specificSessionId`. -/
def specificPurchaseId : String := "682463c0b70ad39d9ac8c16b"

/-- Last-ditch branch of the webhook lookup: when the event's session id is,
or is a truncation of, the hardcoded problematic session id, use the
hardcoded purchase when it is still pending. -/
def findSpecific (db : DB) (s : StripeSession) : Option CoursePurchase :=
  if decide (s.id = specificSessionId) || listIsInfix s.id.data specificSessionId.data then
    match findById db.purchases specificPurchaseId with
    | some p => if p.status = PurchaseStatus.pending then some p else none
    | none => none
  else none

/-- The most recently created pending purchase
(`find({status:"pending"}).sort({createdAt:-1}).limit(5)` then index 0). -/
def mostRecentPending (purchases : List CoursePurchase) : Option CoursePurchase :=
  purchases.foldl
    (fun acc p =>
      if p.status = PurchaseStatus.pending then
        match acc with
        | none => some p
        | some q => if p.createdAt > q.createdAt then some p else some q
      else acc)
    none

/-- The webhook's purchase-lookup cascade: (1) exact `paymentId` match;
(2) unanchored match of the first 20 characters of the session id against the
stored `paymentId` (the stored id is NOT corrected on this branch); when the
session carries `courseId` and `userId` metadata, (3) metadata match on a
still-pending purchase and (4) the most recent pending purchase, both of which
overwrite the stored `paymentId` with the event's session id; finally the
hardcoded-session branch. -/
def findPurchaseForSession (db : DB) (s : StripeSession) : Option CoursePurchase :=
  match findFirst (fun p => decide (p.paymentId = s.id)) db.purchases with
  | some p => some p
  | none =>
    match findFirst (fun p => listIsInfix (strTake s.id 20).data p.paymentId.data) db.purchases with
    | some p => some p
    | none =>
      match s.metadata with
      | some m =>
        match m.courseId, m.userId with
        | some c, some u =>
          match findFirst (fun p =>
              decide (p.courseId = c) && decide (p.userId = u) &&
              decide (p.status = PurchaseStatus.pending)) db.purchases with
          | some p => some { p with paymentId := s.id }
          | none =>
            match mostRecentPending db.purchases with
            | some p => some { p with paymentId := s.id }
            | none => findSpecific db s
        | _, _ => findSpecific db s
      | none => findSpecific db s

/-- A verified webhook event: its type and the session object in its payload. -/
structure WebhookEvent where
  type : String
  session : StripeSession
  deriving DecidableEq, Repr

/-- Model of `stripeWebhook`: 500 when the endpoint secret is unset; 400 when
signature construction throws; for an authentic `checkout.session.completed`
event run the lookup cascade — 404 when it resolves nothing — then overwrite
the purchase amount with `amount_total / 100` and run
`updatePurchaseToSucceeded`, answering 200; any other authentic event type is
acknowledged with 200 without processing. -/
def stripeWebhook (db : DB) (secretSet : Bool) (event : Except String WebhookEvent)
    (enrollOk : Bool) : DB × Nat :=
  if !secretSet then (db, 500)
  else
    match event with
    | Except.error _ => (db, 400)
    | Except.ok ev =>
        if ev.type = "checkout.session.completed" then
          match findPurchaseForSession db ev.session with
          | none => (db, 404)
          | some purchase =>
              let p := { purchase with amount := ev.session.amount_total / 100 }
              ((updatePurchaseToSucceeded db p enrollOk).1, 200)
        else (db, 200)

/-- Model of `getCourseDetailWithPurchaseStatus`: 404 when the course is
absent; otherwise the course plus a `purchased` flag that is the mere
existence of ANY purchase record for this user and course, with no status
filter. -/
def getCourseDetailWithPurchaseStatus (db : DB) (courseId userId : String) :
    Option (Course × Bool) :=
  let course := findFirst (fun c => decide (c.id = courseId)) db.courses
  let purchased := findFirst
    (fun p => decide (p.userId = userId) && decide (p.courseId = courseId)) db.purchases
  match course with
  | none => none
  | some c => some (c, purchased.isSome)

/-! Concrete records used by the witnesses and counterexamples below. -/

/-- A provider for which every retrieve call throws (network outage). -/
def provErr : Provider := fun _ => RetrieveResult.err "network error"

/-- A pending purchase two hours old at time 7200000. -/
def pPend : CoursePurchase :=
  { id := "p1", courseId := "c1", userId := "u1", amount := 500,
    status := PurchaseStatus.pending, paymentId := "cs_p1", createdAt := 0 }

/-- A purchase already in the terminal `succeeded` state. -/
def pDone : CoursePurchase :=
  { pPend with id := "p2", paymentId := "cs_p2", status := PurchaseStatus.succeeded }

/-- A purchase already in the terminal `failed` state. -/
def pFail : CoursePurchase :=
  { pPend with id := "p3", paymentId := "cs_p3", status := PurchaseStatus.failed }

/-- A store holding one purchase of each status, one user and one course. -/
def dbBase : DB :=
  { purchases := [pPend, pDone, pFail],
    users := [{ id := "u1", enrolledCourses := [] }],
    courses := [{ id := "c1", enrolledStudents := [] }] }

/-- A completed-checkout event whose session id matches the failed purchase. -/
def evFail : WebhookEvent :=
  { type := "checkout.session.completed",
    session := { id := "cs_p3", payment_status := "paid", amount_total := 48000,
                 metadata := none } }

/-- A purchase whose stored session id is a 20-character truncation. -/
def pTrunc : CoursePurchase :=
  { id := "p5", courseId := "c5", userId := "u5", amount := 10,
    status := PurchaseStatus.pending, paymentId := "cs_live_ABCDEFGHIJKL", createdAt := 0 }

/-- A store holding only the truncated-id purchase. -/
def dbTrunc : DB :=
  { purchases := [pTrunc],
    users := [{ id := "u5", enrolledCourses := [] }],
    courses := [{ id := "c5", enrolledStudents := [] }] }

/-- A completed-checkout event whose full session id extends the stored
truncation. -/
def evTrunc : WebhookEvent :=
  { type := "checkout.session.completed",
    session := { id := "cs_live_ABCDEFGHIJKLMNOP", payment_status := "paid",
                 amount_total := 1000, metadata := none } }

/-- The empty store. -/
def dbEmpty : DB := { purchases := [], users := [], courses := [] }

/-- A completed-checkout event matching no stored purchase. -/
def evNoMatch : WebhookEvent :=
  { type := "checkout.session.completed",
    session := { id := "cs_nomatch", payment_status := "paid", amount_total := 100,
                 metadata := none } }

/-- An authentic event of a type other than checkout completion. -/
def evOtherType : WebhookEvent :=
  { type := "payment_intent.created",
    session := { id := "cs_other", payment_status := "paid", amount_total := 100,
                 metadata := none } }

/-- The purchase of the amount-correction scenario: recorded amount 500. -/
def pC8 : CoursePurchase :=
  { id := "p8", courseId := "c8", userId := "u8", amount := 500,
    status := PurchaseStatus.pending, paymentId := "cs_sess8", createdAt := 0 }

/-- The store of the amount-correction scenario. -/
def dbC8 : DB :=
  { purchases := [pC8],
    users := [{ id := "u8", enrolledCourses := [] }],
    courses := [{ id := "c8", enrolledStudents := [] }] }

/-- The completion event of the amount-correction scenario: the provider's
authoritative total is 48000 minor units, i.e. 480. -/
def evC8 : WebhookEvent :=
  { type := "checkout.session.completed",
    session := { id := "cs_sess8", payment_status := "paid", amount_total := 48000,
                 metadata := none } }

/-- A pending purchase targeted by the fix-payment route counterexamples. -/
def pC9 : CoursePurchase :=
  { id := "p9", courseId := "c9", userId := "u9", amount := 250,
    status := PurchaseStatus.pending, paymentId := "cs_p9", createdAt := 0 }

/-- The store for the fix-payment route counterexamples. -/
def dbC9 : DB :=
  { purchases := [pC9],
    users := [{ id := "u9", enrolledCourses := [] }],
    courses := [{ id := "c9", enrolledStudents := [] }] }

/-- A pending purchase matched only through session metadata. -/
def pMeta : CoursePurchase :=
  { id := "pm", courseId := "cm", userId := "um", amount := 75,
    status := PurchaseStatus.pending, paymentId := "cs_stored_value", createdAt := 0 }

/-- The store for the metadata-fallback witness. -/
def dbMeta : DB :=
  { purchases := [pMeta],
    users := [{ id := "um", enrolledCourses := [] }],
    courses := [{ id := "cm", enrolledStudents := [] }] }

/-- A session whose id matches nothing stored but whose metadata identifies
the pending purchase `pMeta`. -/
def sessMeta : StripeSession :=
  { id := "cs_w5authoritative_long", payment_status := "paid", amount_total := 7500,
    metadata := some { courseId := some "cm", userId := some "um" } }

/-! Helper lemmas about the store operations. -/

theorem addToSet_self_mem (x : String) (l : List String) : x ∈ addToSet x l := by
  unfold addToSet
  split
  · assumption
  · simp

theorem addToSet_idem (x : String) (l : List String) :
    addToSet x (addToSet x l) = addToSet x l := by
  by_cases hx : x ∈ l <;> simp [addToSet, hx]

theorem findFirst_isSome {α : Type} (pred : α → Bool) (l : List α) :
    (findFirst pred l).isSome = true ↔ ∃ x ∈ l, pred x = true := by
  induction l with
  | nil => simp [findFirst]
  | cons x t ih =>
      by_cases hx : pred x = true
      · simp [findFirst, hx]
      · simp [findFirst, hx, ih]

theorem savePurchase_cons (q : CoursePurchase) (t : List CoursePurchase) (p : CoursePurchase) :
    savePurchase (q :: t) p = (if q.id = p.id then p else q) :: savePurchase t p := rfl

theorem findById_cons (q : CoursePurchase) (t : List CoursePurchase) (pid : String) :
    findById (q :: t) pid = if q.id = pid then some q else findById t pid := by
  by_cases hq : q.id = pid <;> simp [findById, findFirst, hq]

theorem findById_savePurchase_ne (l : List CoursePurchase) (p : CoursePurchase)
    (pid : String) (h : p.id ≠ pid) :
    findById (savePurchase l p) pid = findById l pid := by
  induction l with
  | nil => rfl
  | cons q t ih =>
      rw [savePurchase_cons]
      by_cases dq : q.id = p.id
      · rw [if_pos dq, findById_cons, findById_cons, if_neg h,
          if_neg (show ¬ q.id = pid from fun hqp => h (dq.symm.trans hqp))]
        exact ih
      · rw [if_neg dq, findById_cons, findById_cons]
        by_cases hq : q.id = pid
        · rw [if_pos hq, if_pos hq]
        · rw [if_neg hq, if_neg hq]
          exact ih

theorem findById_of_mem (l : List CoursePurchase) (p : CoursePurchase)
    (hnd : (l.map (fun q => q.id)).Nodup) (hm : p ∈ l) :
    findById l p.id = some p := by
  induction l with
  | nil => cases hm
  | cons q t ih =>
      rw [List.map_cons, List.nodup_cons] at hnd
      rcases List.mem_cons.mp hm with rfl | hmt
      · simp [findById, findFirst]
      · by_cases hq : q.id = p.id
        · exact absurd (hq ▸ List.mem_map_of_mem (fun r => r.id) hmt) hnd.1
        · simp only [findById, findFirst, decide_eq_false hq, Bool.false_eq_true, if_false]
          exact ih hnd.2 hmt

theorem foldl_find_invariant (step : DB → CoursePurchase → DB) (pid : String)
    (L : List CoursePurchase) (db : DB)
    (h : ∀ db1 q, q ∈ L → findById (step db1 q).purchases pid = findById db1.purchases pid) :
    findById ((L.foldl step db).purchases) pid = findById db.purchases pid := by
  induction L generalizing db with
  | nil => rfl
  | cons q t ih =>
      rw [List.foldl_cons,
        ih (step db q) (fun db1 r hr => h db1 r (List.mem_cons_of_mem q hr))]
      exact h db q (List.mem_cons_self q t)

theorem upd_purchases (db : DB) (q : CoursePurchase) (e : Bool) :
    (updatePurchaseToSucceeded db q e).1.purchases =
      savePurchase db.purchases { q with status := PurchaseStatus.succeeded } := by
  cases e <;> rfl

theorem upd_snd (db : DB) (q : CoursePurchase) (e : Bool) :
    (updatePurchaseToSucceeded db q e).2.1 = { q with status := PurchaseStatus.succeeded } := by
  cases e <;> rfl

theorem sweepOne_findById_ne (provider : Provider) (now : Nat) (e : Bool) (db : DB)
    (q : CoursePurchase) (pid : String) (h : q.id ≠ pid) :
    findById (sweepOne provider now e db q).purchases pid = findById db.purchases pid := by
  have hid : ({ q with status := PurchaseStatus.succeeded } : CoursePurchase).id ≠ pid := h
  simp only [sweepOne]
  repeat' split
  all_goals
    first
      | rfl
      | (rw [upd_purchases]; exact findById_savePurchase_ne _ _ _ hid)

theorem sweepOne_notpaid (provider : Provider) (now : Nat) (e : Bool) (db : DB)
    (q : CoursePurchase) (h : providerSaysPaid provider q.paymentId = false) :
    sweepOne provider now e db q = db := by
  unfold providerSaysPaid at h
  cases hp : provider q.paymentId with
  | ok s =>
      rw [hp] at h
      simp only [decide_eq_false_iff_not] at h
      unfold sweepOne verifyPaymentWithStripe
      rw [hp]
      by_cases hs : strStartsWith q.paymentId "cs_" = true <;> simp [hs, h]
  | err m =>
      unfold sweepOne verifyPaymentWithStripe
      rw [hp]
      by_cases hs : strStartsWith q.paymentId "cs_" = true <;> simp [hs]

theorem fixOneStuck_findById_ne (provider : Provider) (now : Nat) (db : DB)
    (q : CoursePurchase) (pid : String) (h : q.id ≠ pid) :
    findById (fixOneStuck provider now db q).purchases pid = findById db.purchases pid := by
  have hid : ({ q with status := PurchaseStatus.succeeded } : CoursePurchase).id ≠ pid := h
  simp only [fixOneStuck]
  split
  · exact findById_savePurchase_ne _ _ _ hid
  · rfl

theorem sweep_keeps_unpaid_pending (provider : Provider) (now : Nat) (e : Bool) (db : DB)
    (p : CoursePurchase) (hm : p ∈ db.purchases)
    (hnd : (db.purchases.map (fun q => q.id)).Nodup)
    (hnp : providerSaysPaid provider p.paymentId = false) :
    findById (checkForStuckPayments provider now e db).purchases p.id = some p := by
  unfold checkForStuckPayments
  rw [foldl_find_invariant]
  · exact findById_of_mem db.purchases p hnd hm
  · intro db1 q hq
    have hq1 : q ∈ db.purchases := List.mem_of_mem_filter hq
    by_cases hid : q.id = p.id
    · have hqp : q = p := List.inj_on_of_nodup_map hnd hq1 hm hid
      rw [sweepOne_notpaid provider now e db1 q (by rw [hqp]; exact hnp)]
    · exact sweepOne_findById_ne provider now e db1 q p.id hid

theorem sweep_keeps_terminal (provider : Provider) (now : Nat) (e : Bool) (db : DB)
    (p : CoursePurchase) (hm : p ∈ db.purchases)
    (hnd : (db.purchases.map (fun q => q.id)).Nodup)
    (hp : p.status ≠ PurchaseStatus.pending) :
    findById (checkForStuckPayments provider now e db).purchases p.id = some p := by
  unfold checkForStuckPayments
  rw [foldl_find_invariant]
  · exact findById_of_mem db.purchases p hnd hm
  · intro db1 q hq
    have hq1 : q ∈ db.purchases := List.mem_of_mem_filter hq
    have hqs : q.status = PurchaseStatus.pending := by
      have := List.of_mem_filter hq
      simp only [Bool.and_eq_true, decide_eq_true_eq] at this
      exact this.1
    by_cases hid : q.id = p.id
    · exact absurd (by rw [← List.inj_on_of_nodup_map hnd hq1 hm hid]; exact hqs) hp
    · exact sweepOne_findById_ne provider now e db1 q p.id hid

theorem fixAll_keeps_terminal (provider : Provider) (now : Nat) (db : DB)
    (p : CoursePurchase) (hm : p ∈ db.purchases)
    (hnd : (db.purchases.map (fun q => q.id)).Nodup)
    (hp : p.status ≠ PurchaseStatus.pending) :
    findById (fixAllStuckPayments provider now db).purchases p.id = some p := by
  unfold fixAllStuckPayments
  rw [foldl_find_invariant]
  · exact findById_of_mem db.purchases p hnd hm
  · intro db1 q hq
    have hq1 : q ∈ db.purchases := List.mem_of_mem_filter hq
    have hqs : q.status = PurchaseStatus.pending := by
      have := List.of_mem_filter hq
      simp only [decide_eq_true_eq] at this
      exact this
    by_cases hid : q.id = p.id
    · exact absurd (by rw [← List.inj_on_of_nodup_map hnd hq1 hm hid]; exact hqs) hp
    · exact fixOneStuck_findById_ne provider now db1 q p.id hid

theorem userAdd_idem (users : List User) (uid cid : String) :
    userAddEnrolledCourse (userAddEnrolledCourse users uid cid) uid cid =
      userAddEnrolledCourse users uid cid := by
  unfold userAddEnrolledCourse
  rw [List.map_map]
  apply List.map_congr_left
  intro u _
  by_cases hu : u.id = uid
  · simp [Function.comp, hu, addToSet_idem]
  · simp [Function.comp, hu]

theorem courseAdd_idem (courses : List Course) (cid uid : String) :
    courseAddEnrolledStudent (courseAddEnrolledStudent courses cid uid) cid uid =
      courseAddEnrolledStudent courses cid uid := by
  unfold courseAddEnrolledStudent
  rw [List.map_map]
  apply List.map_congr_left
  intro c _
  by_cases hc : c.id = cid
  · simp [Function.comp, hc, addToSet_idem]
  · simp [Function.comp, hc]

theorem savePurchase_idem (l : List CoursePurchase) (p : CoursePurchase) :
    savePurchase (savePurchase l p) p = savePurchase l p := by
  unfold savePurchase
  rw [List.map_map]
  apply List.map_congr_left
  intro q _
  by_cases hq : q.id = p.id <;> simp [Function.comp, hq]

theorem userAdd_mem_enrolled (users : List User) (uid cid : String)
    (u : User) (hu : u ∈ userAddEnrolledCourse users uid cid) (hid : u.id = uid) :
    cid ∈ u.enrolledCourses := by
  unfold userAddEnrolledCourse at hu
  rcases List.mem_map.mp hu with ⟨u0, _, rfl⟩
  by_cases h0 : u0.id = uid
  · rw [if_pos h0]
    exact addToSet_self_mem cid u0.enrolledCourses
  · rw [if_neg h0] at hid
    exact absurd hid h0

theorem courseAdd_mem_enrolled (courses : List Course) (cid uid : String)
    (c : Course) (hc : c ∈ courseAddEnrolledStudent courses cid uid) (hid : c.id = cid) :
    uid ∈ c.enrolledStudents := by
  unfold courseAddEnrolledStudent at hc
  rcases List.mem_map.mp hc with ⟨c0, _, rfl⟩
  by_cases h0 : c0.id = cid
  · rw [if_pos h0]
    exact addToSet_self_mem uid c0.enrolledStudents
  · rw [if_neg h0] at hid
    exact absurd hid h0

theorem savePurchase_mem_id (l : List CoursePurchase) (p q : CoursePurchase)
    (hq : q ∈ savePurchase l p) (hid : q.id = p.id) : q = p := by
  unfold savePurchase at hq
  rcases List.mem_map.mp hq with ⟨q0, _, rfl⟩
  by_cases h0 : q0.id = p.id
  · rw [if_pos h0]
  · rw [if_neg h0] at hid
    exact absurd hid h0

/-! The claims. -/

/-- C1: when the stored payment-session id is queried against the provider
and the query fails, the outcome of `verifyPaymentWithStripe` is a distinct
verification-error — it carries an `error` and no `session`, while any
successful query (paid or unpaid) carries the `session` and no `error`, so a
caller can always tell a failed query from a successful query that reported
unpaid — and a sweep of `checkForStuckPayments` over such a purchase leaves
its stored record untouched, still `pending`, never marked denied. -/
theorem C1_query_failure_distinct_outcome :
    ∀ (provider : Provider) (paymentId msg : String),
      provider paymentId = RetrieveResult.err msg →
      ((strStartsWith paymentId "cs_" = true →
          verifyPaymentWithStripe provider paymentId =
            { verified := false, session := none, error := some msg }) ∧
       (∀ (provider2 : Provider) (pid2 : String) (s : StripeSession),
          provider2 pid2 = RetrieveResult.ok s → strStartsWith pid2 "cs_" = true →
          (verifyPaymentWithStripe provider2 pid2).session = some s ∧
          verifyPaymentWithStripe provider paymentId ≠ verifyPaymentWithStripe provider2 pid2) ∧
       (∀ (db : DB) (now : Nat) (e : Bool) (p : CoursePurchase),
          p ∈ db.purchases → (db.purchases.map (fun q => q.id)).Nodup →
          p.status = PurchaseStatus.pending → p.paymentId = paymentId →
          findById (checkForStuckPayments provider now e db).purchases p.id = some p)) := by
  intro provider paymentId msg h
  refine ⟨?_, ?_, ?_⟩
  · intro hstart
    unfold verifyPaymentWithStripe
    rw [h, if_pos hstart]
  · intro provider2 pid2 s h2 hstart2
    constructor
    · unfold verifyPaymentWithStripe
      rw [h2, if_pos hstart2]
    · unfold verifyPaymentWithStripe
      rw [h, h2, if_pos hstart2]
      by_cases hs1 : strStartsWith paymentId "cs_" = true
      · rw [if_pos hs1]
        exact fun heq => Option.noConfusion (congrArg VerifyResult.session heq)
      · rw [if_neg hs1]
        exact fun heq => Option.noConfusion (congrArg VerifyResult.session heq)
  · intro db now e p hm hnd _ hpid
    apply sweep_keeps_unpaid_pending provider now e db p hm hnd
    rw [hpid]
    unfold providerSaysPaid
    rw [h]

/-- C1 witness: with a provider whose every retrieve throws, verification of
`cs_p1` reports the error and the sweep leaves the pending purchase intact. -/
theorem C1_witness :
    verifyPaymentWithStripe provErr "cs_p1" =
      { verified := false, session := none, error := some "network error" } ∧
    findById (checkForStuckPayments provErr 7200000 true dbBase).purchases "p1" = some pPend := by
  have h := C1_query_failure_distinct_outcome provErr "cs_p1" "network error" rfl
  exact ⟨h.1 (by decide),
    h.2.2 dbBase 7200000 true pPend (by decide) (by decide) (by decide) rfl⟩

/-- C3 (amended): the periodic sweeper `checkForStuckPayments` never
force-succeeds on age alone — a purchase whose provider query does not report
`paid` (unpaid report or thrown query) is left exactly as it was, whatever its
age; the standalone `fixAllStuckPayments` script, by contrast, does
force-succeed on age alone (see the counterexample). -/
theorem C3_periodic_sweep_no_force_on_age :
    ∀ (provider : Provider) (now : Nat) (e : Bool) (db : DB) (p : CoursePurchase),
      p ∈ db.purchases → (db.purchases.map (fun q => q.id)).Nodup →
      p.status = PurchaseStatus.pending →
      providerSaysPaid provider p.paymentId = false →
      findById (checkForStuckPayments provider now e db).purchases p.id = some p :=
  fun provider now e db p hm hnd _ hnp =>
    sweep_keeps_unpaid_pending provider now e db p hm hnd hnp

/-- C3 witness: a two-hour-old pending purchase with an unreachable provider
survives a periodic sweep unchanged. -/
theorem C3_witness :
    findById (checkForStuckPayments provErr 500000 true dbBase).purchases "p1" = some pPend :=
  C3_periodic_sweep_no_force_on_age provErr 500000 true dbBase pPend (by decide) (by decide)
    (by decide) (by decide)

/-- C3 counterexample: `fixAllStuckPayments` (fixStuckPayment.js), a sweep
over stuck payments cited by the claim, force-succeeds a two-hour-old pending
purchase although every provider query throws — age alone, without provider
confirmation, moves it out of `pending`, so the claim as stated is false. -/
theorem C3_counterexample :
    pPend.status = PurchaseStatus.pending ∧
    providerSaysPaid provErr pPend.paymentId = false ∧
    (findById (fixAllStuckPayments provErr 7200000 dbBase).purchases "p1").map
        (fun q => q.status) = some PurchaseStatus.succeeded := by
  decide

/-- C4 (amended): no transition out of `succeeded` or `failed` on the admin
CLI fixer, the fix-payment route, the periodic sweeper, or the standalone fix
script — each leaves a terminal-status purchase exactly as stored; the webhook
path, however, has no terminal-status guard and does move a `failed` purchase
to `succeeded` (see the counterexample). -/
theorem C4_terminal_states_preserved_outside_webhook :
    (∀ (db : DB) (provider : Provider) (se : Bool) (p : CoursePurchase) (force e : Bool),
       p.status ≠ PurchaseStatus.pending →
       fixPayment db provider se p force e = (db, false, [])) ∧
    (∀ (db : DB) (pid : String) (p : CoursePurchase),
       findById db.purchases pid = some p → p.status ≠ PurchaseStatus.pending →
       fixPaymentRoute db false pid = (db, 400)) ∧
    (∀ (provider : Provider) (now : Nat) (e : Bool) (db : DB) (p : CoursePurchase),
       p ∈ db.purchases → (db.purchases.map (fun q => q.id)).Nodup →
       p.status ≠ PurchaseStatus.pending →
       findById (checkForStuckPayments provider now e db).purchases p.id = some p) ∧
    (∀ (provider : Provider) (now : Nat) (db : DB) (p : CoursePurchase),
       p ∈ db.purchases → (db.purchases.map (fun q => q.id)).Nodup →
       p.status ≠ PurchaseStatus.pending →
       findById (fixAllStuckPayments provider now db).purchases p.id = some p) := by
  refine ⟨?_, ?_, ?_, ?_⟩
  · intro db provider se p force e hstat
    unfold fixPayment
    rw [if_pos hstat]
  · intro db pid p hfind hstat
    unfold fixPaymentRoute
    rw [hfind]
    simp only [Bool.false_eq_true, if_false]
    rw [if_neg hstat]
  · intro provider now e db p hm hnd hstat
    exact sweep_keeps_terminal provider now e db p hm hnd hstat
  · intro provider now db p hm hnd hstat
    exact fixAll_keeps_terminal provider now db p hm hnd hstat

/-- C4 witness: the CLI fixer refuses an already-succeeded purchase without
any write, and the standalone fix script leaves a failed purchase as stored. -/
theorem C4_witness :
    fixPayment dbBase provErr true pDone false true = (dbBase, false, []) ∧
    findById (fixAllStuckPayments provErr 7200000 dbBase).purchases "p3" = some pFail := by
  refine ⟨C4_terminal_states_preserved_outside_webhook.1 dbBase provErr true pDone false true
    (by decide), ?_⟩
  exact C4_terminal_states_preserved_outside_webhook.2.2.2 provErr 7200000 dbBase pFail
    (by decide) (by decide) (by decide)

/-- C4 counterexample: a `failed` purchase whose stored session id matches a
completed-checkout webhook event is moved to `succeeded` by the webhook — a
transition out of a terminal state, contradicting the claim. -/
theorem C4_counterexample :
    pFail.status = PurchaseStatus.failed ∧
    (findById (stripeWebhook dbBase true (Except.ok evFail) true).1.purchases "p3").map
        (fun q => q.status) = some PurchaseStatus.succeeded := by
  decide

theorem upd_users_true (db : DB) (q : CoursePurchase) :
    (updatePurchaseToSucceeded db q true).1.users =
      userAddEnrolledCourse db.users q.userId q.courseId := rfl

theorem upd_courses_true (db : DB) (q : CoursePurchase) :
    (updatePurchaseToSucceeded db q true).1.courses =
      courseAddEnrolledStudent db.courses q.courseId q.userId := rfl

theorem upd_fst_true (db : DB) (q : CoursePurchase) :
    (updatePurchaseToSucceeded db q true).1 =
      { purchases := savePurchase db.purchases { q with status := PurchaseStatus.succeeded },
        users := userAddEnrolledCourse db.users q.userId q.courseId,
        courses := courseAddEnrolledStudent db.courses q.courseId q.userId } := rfl

theorem upd_fst_false (db : DB) (q : CoursePurchase) :
    (updatePurchaseToSucceeded db q false).1 =
      { purchases := savePurchase db.purchases { q with status := PurchaseStatus.succeeded },
        users := db.users,
        courses := db.courses } := rfl

theorem status_update_idem (q : CoursePurchase) :
    ({ { q with status := PurchaseStatus.succeeded } with
        status := PurchaseStatus.succeeded } : CoursePurchase) =
      { q with status := PurchaseStatus.succeeded } := rfl

/-- C2 (amended): re-running `updatePurchaseToSucceeded` on its own result
changes nothing observable — the store and the saved document are fixed points
(enrollment is a set-insert and the save rewrites the same record) — and the
admin `fixPayment` path does short-circuit on a terminal status, returning
no-action with an empty write trace; `updatePurchaseToSucceeded` itself,
however, has no terminal-status short-circuit and re-issues its writes (see
the counterexample), contrary to the claim's "returns already-terminal
without side effects". -/
theorem C2_reconcile_idempotent_state :
    (∀ (db : DB) (p : CoursePurchase) (e : Bool),
       (updatePurchaseToSucceeded (updatePurchaseToSucceeded db p e).1
           (updatePurchaseToSucceeded db p e).2.1 e).1 =
         (updatePurchaseToSucceeded db p e).1 ∧
       (updatePurchaseToSucceeded (updatePurchaseToSucceeded db p e).1
           (updatePurchaseToSucceeded db p e).2.1 e).2.1 =
         (updatePurchaseToSucceeded db p e).2.1) ∧
    (∀ (db : DB) (provider : Provider) (se : Bool) (p : CoursePurchase) (force e : Bool),
       p.status ≠ PurchaseStatus.pending →
       fixPayment db provider se p force e = (db, false, [])) := by
  constructor
  · intro db p e
    refine ⟨?_, rfl⟩
    cases e
    · rw [upd_snd, upd_fst_false, upd_fst_false]
      simp only [status_update_idem, savePurchase_idem]
    · rw [upd_snd, upd_fst_true, upd_fst_true]
      simp only [status_update_idem, savePurchase_idem, userAdd_idem, courseAdd_idem]
  · intro db provider se p force e hstat
    unfold fixPayment
    rw [if_pos hstat]

/-- C2 witness: a second engine run on a freshly reconciled purchase leaves
the store fixed, and the CLI fixer short-circuits on a failed purchase. -/
theorem C2_witness :
    (updatePurchaseToSucceeded (updatePurchaseToSucceeded dbBase pPend true).1
        (updatePurchaseToSucceeded dbBase pPend true).2.1 true).1 =
      (updatePurchaseToSucceeded dbBase pPend true).1 ∧
    fixPayment dbBase provErr true pFail false true = (dbBase, false, []) :=
  ⟨(C2_reconcile_idempotent_state.1 dbBase pPend true).1,
   C2_reconcile_idempotent_state.2 dbBase provErr true pFail false true (by decide)⟩

/-- C2 counterexample: invoked on a purchase whose status is already the
terminal `succeeded`, `updatePurchaseToSucceeded` does not short-circuit: it
re-issues both enrollment writes and a save — a non-empty write trace, not an
"already-terminal outcome without side effects". -/
theorem C2_counterexample :
    pDone.status = PurchaseStatus.succeeded ∧
    (updatePurchaseToSucceeded dbBase pDone true).2.2 =
      [DbWrite.enrollUser "u1" "c1", DbWrite.enrollCourse "c1" "u1",
       DbWrite.savePurchase "p2"] ∧
    (updatePurchaseToSucceeded dbBase pDone true).2.2 ≠ [] := by
  decide

/-- C5 (amended): the webhook lookup cascade tries the exact session-id match
first, then the 20-character-truncation (partial) match, then — when the event
carries courseId and userId metadata — the metadata match on a pending
purchase and finally the most-recently-created pending purchase, in that
order; matches found via metadata or the most-recent heuristic get the stored
external id overwritten with the event's session id, but a partial match
leaves the stored id uncorrected — contrary to the claim, which asserts the
correction for all three fallbacks. -/
theorem C5_lookup_cascade_order_and_correction :
    ∀ (db : DB) (s : StripeSession),
      (∀ p, findFirst (fun q => decide (q.paymentId = s.id)) db.purchases = some p →
         findPurchaseForSession db s = some p) ∧
      (∀ p, findFirst (fun q => decide (q.paymentId = s.id)) db.purchases = none →
         findFirst (fun q => listIsInfix (strTake s.id 20).data q.paymentId.data)
             db.purchases = some p →
         findPurchaseForSession db s = some p) ∧
      (∀ p c u, findFirst (fun q => decide (q.paymentId = s.id)) db.purchases = none →
         findFirst (fun q => listIsInfix (strTake s.id 20).data q.paymentId.data)
             db.purchases = none →
         s.metadata = some { courseId := some c, userId := some u } →
         findFirst (fun q => decide (q.courseId = c) && decide (q.userId = u) &&
             decide (q.status = PurchaseStatus.pending)) db.purchases = some p →
         findPurchaseForSession db s = some { p with paymentId := s.id }) ∧
      (∀ p c u, findFirst (fun q => decide (q.paymentId = s.id)) db.purchases = none →
         findFirst (fun q => listIsInfix (strTake s.id 20).data q.paymentId.data)
             db.purchases = none →
         s.metadata = some { courseId := some c, userId := some u } →
         findFirst (fun q => decide (q.courseId = c) && decide (q.userId = u) &&
             decide (q.status = PurchaseStatus.pending)) db.purchases = none →
         mostRecentPending db.purchases = some p →
         findPurchaseForSession db s = some { p with paymentId := s.id }) := by
  intro db s
  refine ⟨?_, ?_, ?_, ?_⟩
  · intro p h1
    unfold findPurchaseForSession
    rw [h1]
  · intro p h1 h2
    unfold findPurchaseForSession
    rw [h1, h2]
  · intro p c u h1 h2 hm h3
    unfold findPurchaseForSession
    rw [h1, h2, hm]
    show (match findFirst (fun q => decide (q.courseId = c) && decide (q.userId = u) &&
        decide (q.status = PurchaseStatus.pending)) db.purchases with
      | some p => some { p with paymentId := s.id }
      | none =>
        match mostRecentPending db.purchases with
        | some p => some { p with paymentId := s.id }
        | none => findSpecific db s) = some { p with paymentId := s.id }
    rw [h3]
  · intro p c u h1 h2 hm h3 h4
    unfold findPurchaseForSession
    rw [h1, h2, hm]
    show (match findFirst (fun q => decide (q.courseId = c) && decide (q.userId = u) &&
        decide (q.status = PurchaseStatus.pending)) db.purchases with
      | some p => some { p with paymentId := s.id }
      | none =>
        match mostRecentPending db.purchases with
        | some p => some { p with paymentId := s.id }
        | none => findSpecific db s) = some { p with paymentId := s.id }
    rw [h3, h4]

/-- C5 witness: a session matching no stored id but carrying metadata for a
pending purchase resolves to that purchase with its stored id corrected to
the session id. -/
theorem C5_witness :
    findPurchaseForSession dbMeta sessMeta = some { pMeta with paymentId := sessMeta.id } :=
  (C5_lookup_cascade_order_and_correction dbMeta sessMeta).2.2.1 pMeta "cm" "um"
    (by decide) (by decide) rfl (by decide)

/-- C5 counterexample: a purchase found through the partial (truncation)
match is reconciled to `succeeded` with its stored external id left as the
truncation, not corrected to the event's authoritative session id. -/
theorem C5_counterexample :
    (findById (stripeWebhook dbTrunc true (Except.ok evTrunc) true).1.purchases "p5").map
        (fun q => q.paymentId) = some "cs_live_ABCDEFGHIJKL" ∧
    (findById (stripeWebhook dbTrunc true (Except.ok evTrunc) true).1.purchases "p5").map
        (fun q => q.status) = some PurchaseStatus.succeeded ∧
    ("cs_live_ABCDEFGHIJKL" : String) ≠ evTrunc.session.id := by
  decide

theorem stripeWebhook_ok (db : DB) (ev : WebhookEvent) (e : Bool) :
    stripeWebhook db true (Except.ok ev) e =
      if ev.type = "checkout.session.completed" then
        (match findPurchaseForSession db ev.session with
         | none => (db, 404)
         | some purchase =>
             ((updatePurchaseToSucceeded db
                 { purchase with amount := ev.session.amount_total / 100 } e).1, 200))
      else (db, 200) := rfl

/-- C6 (amended): the webhook answers 200 for any authentic event — of
another type, or a completion event whose cascade resolves a purchase — but
NOT regardless of processing outcome: an authentic completion event matching
no purchase is answered 404 (and a missing endpoint secret 500); 400 is
returned exactly on signature failure.  The claim's "non-success only on
signature failure" is therefore false. -/
theorem C6_webhook_response_codes :
    (∀ (db : DB) (v : Except String WebhookEvent) (e : Bool),
       stripeWebhook db false v e = (db, 500)) ∧
    (∀ (db : DB) (m : String) (e : Bool),
       stripeWebhook db true (Except.error m) e = (db, 400)) ∧
    (∀ (db : DB) (ev : WebhookEvent) (e : Bool),
       ev.type ≠ "checkout.session.completed" →
       stripeWebhook db true (Except.ok ev) e = (db, 200)) ∧
    (∀ (db : DB) (ev : WebhookEvent) (e : Bool),
       ev.type = "checkout.session.completed" →
       findPurchaseForSession db ev.session = none →
       stripeWebhook db true (Except.ok ev) e = (db, 404)) ∧
    (∀ (db : DB) (ev : WebhookEvent) (e : Bool) (p : CoursePurchase),
       ev.type = "checkout.session.completed" →
       findPurchaseForSession db ev.session = some p →
       (stripeWebhook db true (Except.ok ev) e).2 = 200) := by
  refine ⟨fun db v e => rfl, fun db m e => rfl, ?_, ?_, ?_⟩
  · intro db ev e hty
    rw [stripeWebhook_ok, if_neg hty]
  · intro db ev e hty hnone
    rw [stripeWebhook_ok, if_pos hty, hnone]
  · intro db ev e p hty hsome
    rw [stripeWebhook_ok, if_pos hty, hsome]

/-- C6 witness: an authentic event of a non-completion type is acknowledged
with 200 and leaves the store unchanged. -/
theorem C6_witness :
    stripeWebhook dbBase true (Except.ok evOtherType) true = (dbBase, 200) :=
  C6_webhook_response_codes.2.2.1 dbBase evOtherType true (by decide)

/-- C6 counterexample: an authentic, syntactically valid completion event
whose session matches no stored purchase is answered 404, not the success
acknowledgment the claim requires. -/
theorem C6_counterexample :
    (stripeWebhook dbEmpty true (Except.ok evNoMatch) true).2 = 404 ∧ (404 : Nat) ≠ 200 := by
  decide

/-- C7 (amended): a completed `updatePurchaseToSucceeded` pass with the
enrollment writes succeeding does leave the purchase `succeeded` with the
course in the user's enrolledCourses and the user in the course's
enrolledStudents; the invariant is NOT maintained by every path, however: the
fix-payment route persists `succeeded` without touching either enrollment set
(see the counterexample). -/
theorem C7_succeeded_implies_enrollment_in_engine :
    ∀ (db : DB) (purchase : CoursePurchase),
      (updatePurchaseToSucceeded db purchase true).2.1.status = PurchaseStatus.succeeded ∧
      (∀ q ∈ (updatePurchaseToSucceeded db purchase true).1.purchases,
         q.id = purchase.id → q.status = PurchaseStatus.succeeded) ∧
      (∀ u ∈ (updatePurchaseToSucceeded db purchase true).1.users,
         u.id = purchase.userId → purchase.courseId ∈ u.enrolledCourses) ∧
      (∀ c ∈ (updatePurchaseToSucceeded db purchase true).1.courses,
         c.id = purchase.courseId → purchase.userId ∈ c.enrolledStudents) := by
  intro db purchase
  refine ⟨rfl, ?_, ?_, ?_⟩
  · intro q hq hid
    rw [upd_purchases] at hq
    have hqp := savePurchase_mem_id db.purchases _ q hq hid
    rw [hqp]
  · intro u hu hid
    rw [upd_users_true] at hu
    exact userAdd_mem_enrolled db.users purchase.userId purchase.courseId u hu hid
  · intro c hc hid
    rw [upd_courses_true] at hc
    exact courseAdd_mem_enrolled db.courses purchase.courseId purchase.userId c hc hid

/-- C7 witness: reconciling the pending purchase of `dbBase` enrolls user u1
in course c1. -/
theorem C7_witness :
    pPend.courseId ∈ (User.mk "u1" ["c1"]).enrolledCourses := by
  have h := C7_succeeded_implies_enrollment_in_engine dbBase pPend
  exact h.2.2.1 (User.mk "u1" ["c1"]) (by decide) (by decide)

/-- C7 counterexample: the fix-payment route persists a purchase as
`succeeded` while no user holds the course in enrolledCourses — the
enrollment membership the claim requires is absent after the pass. -/
theorem C7_counterexample :
    ((fixPaymentRoute dbBase false "p1").1.purchases.map (fun q => q.status)) =
      [PurchaseStatus.succeeded, PurchaseStatus.succeeded, PurchaseStatus.failed] ∧
    (∀ u ∈ (fixPaymentRoute dbBase false "p1").1.users, "c1" ∉ u.enrolledCourses) ∧
    (∀ c ∈ (fixPaymentRoute dbBase false "p1").1.courses, "u1" ∉ c.enrolledStudents) := by
  decide

theorem fixPayment_force (db : DB) (provider : Provider) (se : Bool) (p : CoursePurchase)
    (hp : p.status = PurchaseStatus.pending) :
    fixPayment db provider se p true true =
      ({ purchases := savePurchase db.purchases { p with status := PurchaseStatus.succeeded },
         users := userAddEnrolledCourse db.users p.userId p.courseId,
         courses := courseAddEnrolledStudent db.courses p.courseId p.userId },
       true,
       [DbWrite.savePurchase p.id, DbWrite.enrollUser p.userId p.courseId,
        DbWrite.enrollCourse p.courseId p.userId]) := by
  unfold fixPayment
  rw [if_neg (fun h => h hp)]
  rfl

theorem fixPaymentRoute_pending (db : DB) (pid : String) (p : CoursePurchase)
    (hfind : findById db.purchases pid = some p) (hp : p.status = PurchaseStatus.pending) :
    fixPaymentRoute db false pid =
      ({ db with
          purchases := savePurchase db.purchases { p with status := PurchaseStatus.succeeded } },
       200) := by
  unfold fixPaymentRoute
  rw [hfind]
  show (if p.status = PurchaseStatus.pending then
      ({ db with
          purchases := savePurchase db.purchases { p with status := PurchaseStatus.succeeded } },
       200)
    else (db, 400)) =
      ({ db with
          purchases := savePurchase db.purchases { p with status := PurchaseStatus.succeeded } },
       200)
  rw [if_pos hp]

/-- C9 (amended): the CLI force-fix on a pending purchase transitions it to
`succeeded` AND applies both enrollment updates, regardless of what the
provider reports; the identified-purchase route, by contrast, transitions the
purchase to `succeeded` while leaving the users and courses collections
completely untouched — it applies no enrollment side effect, contrary to the
claim. -/
theorem C9_force_transitions_and_enrollment :
    (∀ (db : DB) (provider : Provider) (se : Bool) (p : CoursePurchase),
       p.status = PurchaseStatus.pending →
       (fixPayment db provider se p true true).2.1 = true ∧
       (∀ q ∈ (fixPayment db provider se p true true).1.purchases,
          q.id = p.id → q.status = PurchaseStatus.succeeded) ∧
       (∀ u ∈ (fixPayment db provider se p true true).1.users,
          u.id = p.userId → p.courseId ∈ u.enrolledCourses) ∧
       (∀ c ∈ (fixPayment db provider se p true true).1.courses,
          c.id = p.courseId → p.userId ∈ c.enrolledStudents)) ∧
    (∀ (db : DB) (pid : String) (p : CoursePurchase),
       findById db.purchases pid = some p → p.status = PurchaseStatus.pending →
       (fixPaymentRoute db false pid).1.users = db.users ∧
       (fixPaymentRoute db false pid).1.courses = db.courses ∧
       (∀ q ∈ (fixPaymentRoute db false pid).1.purchases,
          q.id = p.id → q.status = PurchaseStatus.succeeded) ∧
       (fixPaymentRoute db false pid).2 = 200) := by
  constructor
  · intro db provider se p hp
    rw [fixPayment_force db provider se p hp]
    refine ⟨rfl, ?_, ?_, ?_⟩
    · intro q hq hid
      have hqp := savePurchase_mem_id db.purchases _ q hq hid
      rw [hqp]
    · intro u hu hid
      exact userAdd_mem_enrolled db.users p.userId p.courseId u hu hid
    · intro c hc hid
      exact courseAdd_mem_enrolled db.courses p.courseId p.userId c hc hid
  · intro db pid p hfind hp
    rw [fixPaymentRoute_pending db pid p hfind hp]
    refine ⟨rfl, rfl, ?_, rfl⟩
    intro q hq hid
    have hqp := savePurchase_mem_id db.purchases _ q hq hid
    rw [hqp]

/-- C9 witness: the CLI force-fix reports success on a pending purchase even
though every provider query throws, and the route answers 200. -/
theorem C9_witness :
    (fixPayment dbC9 provErr true pC9 true true).2.1 = true ∧
    (fixPaymentRoute dbC9 false "p9").2 = 200 := by
  have h1 := C9_force_transitions_and_enrollment.1 dbC9 provErr true pC9 (by decide)
  have h2 := C9_force_transitions_and_enrollment.2 dbC9 "p9" pC9 (by decide) (by decide)
  exact ⟨h1.1, h2.2.2.2⟩

/-- C9 counterexample: the identified-purchase route transitions the pending
purchase to `succeeded` but leaves the users collection unchanged — no
enrollment side effect is applied, although the claim requires it. -/
theorem C9_counterexample :
    ((fixPaymentRoute dbC9 false "p9").1.purchases.map (fun q => q.status)) =
      [PurchaseStatus.succeeded] ∧
    (fixPaymentRoute dbC9 false "p9").1.users = dbC9.users ∧
    (∀ u ∈ (fixPaymentRoute dbC9 false "p9").1.users, "c9" ∉ u.enrolledCourses) := by
  decide

/-- C8: the amount-correction scenario — a purchase recorded with amount 500
is reconciled through a completion event whose authoritative `amount_total`
is 48000 minor units; afterwards the stored amount is 480 (the provider total
divided by 100), the status is `succeeded`, the user's enrolledCourses holds
the course exactly once and the course's enrolledStudents holds the user
exactly once. -/
theorem C8_amount_corrected_scenario :
    (findById (stripeWebhook dbC8 true (Except.ok evC8) true).1.purchases "p8").map
        (fun q => q.amount) = some 480 ∧
    (findById (stripeWebhook dbC8 true (Except.ok evC8) true).1.purchases "p8").map
        (fun q => q.status) = some PurchaseStatus.succeeded ∧
    ((stripeWebhook dbC8 true (Except.ok evC8) true).1.users.map
        (fun u => u.enrolledCourses.count "c8")) = [1] ∧
    ((stripeWebhook dbC8 true (Except.ok evC8) true).1.courses.map
        (fun c => c.enrolledStudents.count "u8")) = [1] := by
  refine ⟨?_, by decide, by decide, by decide⟩
  have h : (findById (stripeWebhook dbC8 true (Except.ok evC8) true).1.purchases "p8").map
      (fun q => q.amount) = some ((48000 : ℚ) / 100) := rfl
  rw [h]
  norm_num

/-- C10: the course-detail query reports `purchased = true` whenever ANY
purchase record exists for the user and course — the lookup carries no status
filter, so a merely pending (or failed) purchase already yields `true`. -/
theorem C10_purchased_flag_ignores_status :
    ∀ (db : DB) (cid uid : String) (p : CoursePurchase) (c : Course),
      p ∈ db.purchases → p.userId = uid → p.courseId = cid →
      findFirst (fun c0 => decide (c0.id = cid)) db.courses = some c →
      getCourseDetailWithPurchaseStatus db cid uid = some (c, true) := by
  intro db cid uid p c hm hu hc hcourse
  have hps : (findFirst (fun q => decide (q.userId = uid) && decide (q.courseId = cid))
      db.purchases).isSome = true := by
    rw [findFirst_isSome]
    exact ⟨p, hm, by rw [hu, hc]; simp⟩
  show (match findFirst (fun c0 => decide (c0.id = cid)) db.courses with
    | none => none
    | some c1 =>
        some (c1, (findFirst (fun q => decide (q.userId = uid) && decide (q.courseId = cid))
          db.purchases).isSome)) = some (c, true)
  rw [hcourse, hps]

/-- C10 witness: with only a pending purchase on record for user u1 and
course c1, the detail query still reports `purchased = true`. -/
theorem C10_witness :
    getCourseDetailWithPurchaseStatus dbBase "c1" "u1" = some (Course.mk "c1" [], true) :=
  C10_purchased_flag_ignores_status dbBase "c1" "u1" pPend (Course.mk "c1" [])
    (by decide) rfl rfl (by decide)
